import Mathlib

/-!
# Verification of the snapshot persistence accessors of go-orange

Shallow embedding of `core/rawdb/accessors_snapshot.go`: the typed
get/put/delete/iterate accessors for the seven persisted snapshot record
kinds (snapshot root, account leaf, storage leaf, journal, generator
state, recovery number, sync status).

The backing key-value store is the external collaborator of §6 of the
spec (`get(key) -> bytes|absent`, `put`, `delete`, prefix iterator); we
model it as an association list with shadowing on `put`.  Bytes are
naturals (< 256 where it matters), byte strings are `List Nat`.
-/

namespace GoOrange

/-- A key of the underlying key-value store: a byte string. -/
abbrev Key := List Nat

/-- A value blob of the underlying key-value store: a byte string. -/
abbrev Value := List Nat

/-- Modelled from the spec: the external key-value store collaborator
(`get(key) -> bytes|absent`, `put(key, value)`, `delete(key)`), as an
association list; `put` prepends, so the newest binding shadows. -/
abbrev Store := List (Key × Value)

/-- `get`: first binding for the key, absent otherwise. -/
def Store.get (st : Store) (k : Key) : Option Value :=
  match st with
  | [] => none
  | (k', v) :: rest => if k' = k then some v else Store.get rest k

/-- `put`: bind `k` to `v`, shadowing any previous binding. -/
def Store.put (st : Store) (k : Key) (v : Value) : Store :=
  (k, v) :: st

/-- `delete`: remove every binding of `k`. -/
def Store.del (st : Store) (k : Key) : Store :=
  match st with
  | [] => []
  | (k', v) :: rest =>
    if k' = k then Store.del rest k else (k', v) :: Store.del rest k

/-- Modelled from the spec: the collaborator's "range iterator over a key
prefix" (`ongdb.Iteratee.NewIterator(prefix, nil)`, whose implementation
is not under src/): the current bindings of the store whose key carries
the given prefix, each distinct key once with its visible value. -/
def Store.iterate (st : Store) (pfx : Key) : List (Key × Value) :=
  ((st.map Prod.fst).dedup).filterMap fun k =>
    if pfx.isPrefixOf k then (st.get k).map fun v => (k, v) else none

/-- Modelled from the spec: `common.Hash` of the common package (not
under src/) — a 32-byte hash (`common.HashLength = 32`). -/
def Hash := {l : List Nat // l.length = 32}

instance : DecidableEq Hash := Subtype.instDecidableEq

/-- The all-zero hash, `common.Hash{}`. -/
def zeroHash : Hash := ⟨List.replicate 32 0, by simp⟩

/-- Modelled from the spec: `common.BytesToHash` of the common package
(not under src/) — sets a hash from a byte string, keeping the last 32
bytes and left-padding with zeros (`Hash.SetBytes` semantics). -/
def bytesToHash (b : List Nat) : Hash :=
  ⟨List.replicate (32 - (b.drop (b.length - 32)).length) 0 ++ b.drop (b.length - 32), by
    simp [List.length_drop]; omega⟩

/-- `binary.BigEndian.PutUint64`: the 8-byte big-endian encoding of a
uint64 (each byte cast truncates mod 256). -/
def putUint64 (n : Nat) : List Nat :=
  [n / 2 ^ 56 % 256, n / 2 ^ 48 % 256, n / 2 ^ 40 % 256, n / 2 ^ 32 % 256,
   n / 2 ^ 24 % 256, n / 2 ^ 16 % 256, n / 2 ^ 8 % 256, n % 256]

/-- `binary.BigEndian.Uint64`: big-endian decode of 8 bytes (the Go code
ORs the shifted bytes; for byte values < 256 the shifted ranges are
disjoint, so the OR is this sum). -/
def readUint64 (b : List Nat) : Nat :=
  b.getD 0 0 * 2 ^ 56 + b.getD 1 0 * 2 ^ 48 + b.getD 2 0 * 2 ^ 40 +
    b.getD 3 0 * 2 ^ 32 + b.getD 4 0 * 2 ^ 24 + b.getD 5 0 * 2 ^ 16 +
    b.getD 6 0 * 2 ^ 8 + b.getD 7 0

/-! ## Schema keys

Modelled from the spec: the key schema of `core/rawdb` (schema file not
under src/).  §6 of the spec fixes the shapes — a fixed key per
singleton record, `fixed prefix + account-hash` for account leaves and
`fixed prefix + account-hash + storage-hash` for storage leaves; the
byte values are the upstream schema constants ("SnapshotRoot", …, with
prefixes "a" and "o"). -/

/-- Modelled from the spec: fixed key of the snapshot root record
(`snapshotRootKey = []byte("SnapshotRoot")`). -/
def snapshotRootKey : Key :=
  [83, 110, 97, 112, 115, 104, 111, 116, 82, 111, 111, 116]

/-- Modelled from the spec: fixed key of the journal record
(`snapshotJournalKey = []byte("SnapshotJournal")`). -/
def snapshotJournalKey : Key :=
  [83, 110, 97, 112, 115, 104, 111, 116, 74, 111, 117, 114, 110, 97, 108]

/-- Modelled from the spec: fixed key of the generator-state record
(`snapshotGeneratorKey = []byte("SnapshotGenerator")`). -/
def snapshotGeneratorKey : Key :=
  [83, 110, 97, 112, 115, 104, 111, 116, 71, 101, 110, 101, 114, 97, 116, 111, 114]

/-- Modelled from the spec: fixed key of the recovery-number record
(`snapshotRecoveryKey = []byte("SnapshotRecovery")`). -/
def snapshotRecoveryKey : Key :=
  [83, 110, 97, 112, 115, 104, 111, 116, 82, 101, 99, 111, 118, 101, 114, 121]

/-- Modelled from the spec: fixed key of the sync-status record
(`snapshotSyncStatusKey = []byte("SnapshotSyncStatus")`). -/
def snapshotSyncStatusKey : Key :=
  [83, 110, 97, 112, 115, 104, 111, 116, 83, 121, 110, 99, 83, 116, 97, 116, 117, 115]

/-- Modelled from the spec: account-leaf key prefix
(`SnapshotAccountPrefix = []byte("a")`). -/
def snapshotAccountPrefix : Key := [97]

/-- Modelled from the spec: storage-leaf key prefix
(`SnapshotStoragePrefix = []byte("o")`). -/
def snapshotStoragePrefix : Key := [111]

/-- Modelled from the spec: `accountSnapshotKey(hash)` — account-leaf
key, fixed prefix followed by the 32-byte account hash. -/
def accountSnapshotKey (h : Hash) : Key :=
  snapshotAccountPrefix ++ h.val

/-- Modelled from the spec: `storageSnapshotKey(accountHash, storageHash)`
— storage-leaf key, fixed prefix, 32-byte account hash, 32-byte storage
hash. -/
def storageSnapshotKey (accountHash storageHash : Hash) : Key :=
  snapshotStoragePrefix ++ accountHash.val ++ storageHash.val

/-- Modelled from the spec: `storageSnapshotsKey(accountHash)` — the
common prefix of all storage-leaf keys of one account. -/
def storageSnapshotsKey (accountHash : Hash) : Key :=
  snapshotStoragePrefix ++ accountHash.val

/-! ## Fallible store and write outcomes

Write accessors call `db.Put` / `db.Delete`, which may fail; on failure
they call `log.Crit`, which (modelled from the spec: the log package is
not under src/; the spec calls a store write failure "fatal,
process-level abort") terminates the process.  We model the store
together with failure oracles, and a write accessor's result as either
a normal return with the updated store or a fatal abort carrying the
`log.Crit` message. -/

/-- The store paired with oracles saying which `Put`/`Delete` calls the
underlying database fails. -/
structure FStore where
  db : Store
  putFails : Key → Value → Bool
  delFails : Key → Bool

/-- Result of `db.Put` as seen by an accessor: the updated store, or an
error. -/
def FStore.putE (f : FStore) (k : Key) (v : Value) : Except String Store :=
  if f.putFails k v then .error "put failed" else .ok (f.db.put k v)

/-- Result of `db.Delete` as seen by an accessor. -/
def FStore.delE (f : FStore) (k : Key) : Except String Store :=
  if f.delFails k then .error "delete failed" else .ok (f.db.del k)

/-- Outcome of a write accessor: normal return with the updated store,
or process abort via `log.Crit` with the logged message. -/
inductive WOutcome where
  | ok (st : Store)
  | crit (msg : String)
deriving DecidableEq

/-- The `if err := ...; err != nil { log.Crit(msg) }` idiom shared by
every write accessor: abort with the message on a store error, return
the updated store otherwise. -/
def critOr (msg : String) : Except String Store → WOutcome
  | .error _ => .crit msg
  | .ok st => .ok st

/-! ## The accessors of `core/rawdb/accessors_snapshot.go`

Read accessors take a `KeyValueReader` and are pure over the store.  In
Go a missed `Get` returns `(nil, err)`; accessors that return the blob
as-is are modelled as returning `Option Value` (`none` ≙ nil), and
accessors that inspect the blob's length first take `(st.get k).getD []`
since `len(nil) = 0`. -/

/-- `ReadSnapshotRoot`: root of the block whose state is in the
persisted snapshot; the zero hash unless a 32-byte blob is stored. -/
def ReadSnapshotRoot (db : Store) : Hash :=
  let data := (db.get snapshotRootKey).getD []
  if data.length ≠ 32 then zeroHash else bytesToHash data

/-- `WriteSnapshotRoot`: store the snapshot root, `log.Crit` on a store
failure. -/
def WriteSnapshotRoot (f : FStore) (root : Hash) : WOutcome :=
  critOr "Failed to store snapshot root" (f.putE snapshotRootKey root.val)

/-- `DeleteSnapshotRoot`: remove the snapshot root, `log.Crit` on a
store failure. -/
def DeleteSnapshotRoot (f : FStore) : WOutcome :=
  critOr "Failed to remove snapshot root" (f.delE snapshotRootKey)

/-- `ReadAccountSnapshot`: the snapshot entry of an account trie leaf. -/
def ReadAccountSnapshot (db : Store) (hash : Hash) : Option Value :=
  db.get (accountSnapshotKey hash)

/-- `WriteAccountSnapshot`: store an account-leaf entry, `log.Crit` on a
store failure. -/
def WriteAccountSnapshot (f : FStore) (hash : Hash) (entry : Value) : WOutcome :=
  critOr "Failed to store account snapshot" (f.putE (accountSnapshotKey hash) entry)

/-- `DeleteAccountSnapshot`: remove an account-leaf entry, `log.Crit` on
a store failure. -/
def DeleteAccountSnapshot (f : FStore) (hash : Hash) : WOutcome :=
  critOr "Failed to delete account snapshot" (f.delE (accountSnapshotKey hash))

/-- `ReadStorageSnapshot`: the snapshot entry of a storage trie leaf. -/
def ReadStorageSnapshot (db : Store) (accountHash storageHash : Hash) : Option Value :=
  db.get (storageSnapshotKey accountHash storageHash)

/-- `WriteStorageSnapshot`: store a storage-leaf entry, `log.Crit` on a
store failure. -/
def WriteStorageSnapshot (f : FStore) (accountHash storageHash : Hash) (entry : Value) : WOutcome :=
  critOr "Failed to store storage snapshot" (f.putE (storageSnapshotKey accountHash storageHash) entry)

/-- `DeleteStorageSnapshot`: remove a storage-leaf entry, `log.Crit` on
a store failure. -/
def DeleteStorageSnapshot (f : FStore) (accountHash storageHash : Hash) : WOutcome :=
  critOr "Failed to delete storage snapshot" (f.delE (storageSnapshotKey accountHash storageHash))

/-- `IterateStorageSnapshots`: iterator over the entire storage space of
one account — `db.NewIterator(storageSnapshotsKey(accountHash), nil)`. -/
def IterateStorageSnapshots (db : Store) (accountHash : Hash) : List (Key × Value) :=
  db.iterate (storageSnapshotsKey accountHash)

/-- `ReadSnapshotJournal`: the serialized diff layers saved at the last
shutdown. -/
def ReadSnapshotJournal (db : Store) : Option Value :=
  db.get snapshotJournalKey

/-- `WriteSnapshotJournal`: store the journal blob, `log.Crit` on a
store failure. -/
def WriteSnapshotJournal (f : FStore) (journal : Value) : WOutcome :=
  critOr "Failed to store snapshot journal" (f.putE snapshotJournalKey journal)

/-- `DeleteSnapshotJournal`: remove the journal blob, `log.Crit` on a
store failure. -/
def DeleteSnapshotJournal (f : FStore) : WOutcome :=
  critOr "Failed to remove snapshot journal" (f.delE snapshotJournalKey)

/-- `ReadSnapshotGenerator`: the serialized generator state saved at the
last shutdown. -/
def ReadSnapshotGenerator (db : Store) : Option Value :=
  db.get snapshotGeneratorKey

/-- `WriteSnapshotGenerator`: store the generator state, `log.Crit` on a
store failure. -/
def WriteSnapshotGenerator (f : FStore) (generator : Value) : WOutcome :=
  critOr "Failed to store snapshot generator" (f.putE snapshotGeneratorKey generator)

/-- `DeleteSnapshotGenerator`: remove the generator state, `log.Crit` on
a store failure. -/
def DeleteSnapshotGenerator (f : FStore) : WOutcome :=
  critOr "Failed to remove snapshot generator" (f.delE snapshotGeneratorKey)

/-- `ReadSnapshotRecoveryNumber`: block number of the last persisted
snapshot layer; `nil` unless an 8-byte blob is stored (the source checks
`len(data) == 0` and then `len(data) != 8`, both yielding nil). -/
def ReadSnapshotRecoveryNumber (db : Store) : Option Nat :=
  let data := (db.get snapshotRecoveryKey).getD []
  if data.length = 0 then none
  else if data.length ≠ 8 then none
  else some (readUint64 data)

/-- `WriteSnapshotRecoveryNumber`: store the big-endian block number,
`log.Crit` on a store failure. -/
def WriteSnapshotRecoveryNumber (f : FStore) (number : Nat) : WOutcome :=
  critOr "Failed to store snapshot recovery number" (f.putE snapshotRecoveryKey (putUint64 number))

/-- `DeleteSnapshotRecoveryNumber`: remove the recovery marker,
`log.Crit` on a store failure. -/
def DeleteSnapshotRecoveryNumber (f : FStore) : WOutcome :=
  critOr "Failed to remove snapshot recovery number" (f.delE snapshotRecoveryKey)

/-- `ReadSnapshotSyncStatus`: the serialized sync status saved at
shutdown. -/
def ReadSnapshotSyncStatus (db : Store) : Option Value :=
  db.get snapshotSyncStatusKey

/-- `WriteSnapshotSyncStatus`: store the sync status, `log.Crit` on a
store failure. -/
def WriteSnapshotSyncStatus (f : FStore) (status : Value) : WOutcome :=
  critOr "Failed to store snapshot sync status" (f.putE snapshotSyncStatusKey status)

/-- `DeleteSnapshotSyncStatus`: remove the sync status, `log.Crit` on a
store failure. -/
def DeleteSnapshotSyncStatus (f : FStore) : WOutcome :=
  critOr "Failed to remove snapshot sync status" (f.delE snapshotSyncStatusKey)

/-! ## A unified view of the seven record kinds

To state key-space disjointness and frame properties once, we package
the seven persisted record kinds: a `Slot` is a storage location (kind
plus the hashes that pick the key), a `SnapRecord` is a slot together
with the payload its Write accessor stores. -/

/-- A storage location of one of the seven record kinds. -/
inductive Slot where
  | root
  | account (h : Hash)
  | storage (a s : Hash)
  | journal
  | generator
  | recovery
  | syncStatus
deriving DecidableEq

/-- The store key of a slot, as built by the accessors. -/
def Slot.key : Slot → Key
  | .root => snapshotRootKey
  | .account h => accountSnapshotKey h
  | .storage a s => storageSnapshotKey a s
  | .journal => snapshotJournalKey
  | .generator => snapshotGeneratorKey
  | .recovery => snapshotRecoveryKey
  | .syncStatus => snapshotSyncStatusKey

/-- The Delete accessor serving a slot. -/
def Slot.del (f : FStore) : Slot → WOutcome
  | .root => DeleteSnapshotRoot f
  | .account h => DeleteAccountSnapshot f h
  | .storage a s => DeleteStorageSnapshot f a s
  | .journal => DeleteSnapshotJournal f
  | .generator => DeleteSnapshotGenerator f
  | .recovery => DeleteSnapshotRecoveryNumber f
  | .syncStatus => DeleteSnapshotSyncStatus f

/-- The `log.Crit` message of the Delete accessor serving a slot. -/
def Slot.delMsg : Slot → String
  | .root => "Failed to remove snapshot root"
  | .account _ => "Failed to delete account snapshot"
  | .storage _ _ => "Failed to delete storage snapshot"
  | .journal => "Failed to remove snapshot journal"
  | .generator => "Failed to remove snapshot generator"
  | .recovery => "Failed to remove snapshot recovery number"
  | .syncStatus => "Failed to remove snapshot sync status"

/-- A record of one of the seven kinds, with the payload its Write
accessor persists. -/
inductive SnapRecord where
  | root (h : Hash)
  | account (h : Hash) (entry : Value)
  | storage (a s : Hash) (entry : Value)
  | journal (blob : Value)
  | generator (blob : Value)
  | recovery (n : Nat)
  | syncStatus (blob : Value)

/-- The slot a record occupies. -/
def SnapRecord.slot : SnapRecord → Slot
  | .root _ => .root
  | .account h _ => .account h
  | .storage a s _ => .storage a s
  | .journal _ => .journal
  | .generator _ => .generator
  | .recovery _ => .recovery
  | .syncStatus _ => .syncStatus

/-- The byte string the Write accessor hands to `db.Put`. -/
def SnapRecord.bytes : SnapRecord → Value
  | .root h => h.val
  | .account _ e => e
  | .storage _ _ e => e
  | .journal b => b
  | .generator b => b
  | .recovery n => putUint64 n
  | .syncStatus b => b

/-- The Write accessor serving a record. -/
def SnapRecord.write (f : FStore) : SnapRecord → WOutcome
  | .root h => WriteSnapshotRoot f h
  | .account h e => WriteAccountSnapshot f h e
  | .storage a s e => WriteStorageSnapshot f a s e
  | .journal b => WriteSnapshotJournal f b
  | .generator b => WriteSnapshotGenerator f b
  | .recovery n => WriteSnapshotRecoveryNumber f n
  | .syncStatus b => WriteSnapshotSyncStatus f b

/-- The `log.Crit` message of the Write accessor serving a record. -/
def SnapRecord.critMsg : SnapRecord → String
  | .root _ => "Failed to store snapshot root"
  | .account _ _ => "Failed to store account snapshot"
  | .storage _ _ _ => "Failed to store storage snapshot"
  | .journal _ => "Failed to store snapshot journal"
  | .generator _ => "Failed to store snapshot generator"
  | .recovery _ => "Failed to store snapshot recovery number"
  | .syncStatus _ => "Failed to store snapshot sync status"

/-- A store whose `Put`/`Delete` never fail, for concrete runs. -/
def noFail (db : Store) : FStore :=
  ⟨db, fun _ _ => false, fun _ => false⟩

/-- A concrete 32-byte hash whose first byte is `b`. -/
def hashOfByte (b : Nat) : Hash :=
  ⟨b :: List.replicate 31 0, by simp⟩

/-! ## Store laws -/

theorem Store.get_put_self (st : Store) (k : Key) (v : Value) :
    (st.put k v).get k = some v := by
  simp [Store.put, Store.get]

theorem Store.get_put_ne (st : Store) {k k' : Key} (v : Value) (h : k' ≠ k) :
    (st.put k v).get k' = st.get k' := by
  simp [Store.put, Store.get, Ne.symm h]

theorem Store.get_del_self (st : Store) (k : Key) :
    (st.del k).get k = none := by
  induction st with
  | nil => simp [Store.del, Store.get]
  | cons p rest ih =>
    obtain ⟨k₀, v⟩ := p
    by_cases h : k₀ = k <;> simp [Store.del, Store.get, h, ih]

theorem Store.get_del_ne (st : Store) {k k' : Key} (h : k' ≠ k) :
    (st.del k).get k' = st.get k' := by
  induction st with
  | nil => simp [Store.del]
  | cons p rest ih =>
    obtain ⟨k₀, v⟩ := p
    by_cases h0 : k₀ = k
    · subst h0
      simp [Store.del, Store.get, Ne.symm h, ih]
    · by_cases h1 : k₀ = k'
      · subst h1
        simp [Store.del, Store.get, h0, ih]
      · simp [Store.del, Store.get, h0, h1, ih]

theorem Store.get_mem_keys {st : Store} {k : Key} {v : Value}
    (h : st.get k = some v) : k ∈ st.map Prod.fst := by
  induction st with
  | nil => simp [Store.get] at h
  | cons p rest ih =>
    obtain ⟨k₀, w⟩ := p
    by_cases h0 : k₀ = k
    · simp [h0]
    · simp only [Store.get, if_neg h0] at h
      simp [ih h]

/-- Membership in the prefix iterator: exactly the visible bindings
whose key carries the prefix. -/
theorem Store.mem_iterate {st : Store} {pfx k : Key} {v : Value} :
    (k, v) ∈ st.iterate pfx ↔ pfx.isPrefixOf k = true ∧ st.get k = some v := by
  unfold Store.iterate
  simp only [List.mem_filterMap, List.mem_dedup]
  constructor
  · rintro ⟨a, _, ha⟩
    by_cases hp : pfx.isPrefixOf a
    · rw [if_pos hp] at ha
      obtain ⟨w, hw, heq⟩ := Option.map_eq_some'.mp ha
      obtain ⟨rfl, rfl⟩ : a = k ∧ w = v := by simpa using heq
      exact ⟨by simpa using hp, hw⟩
    · rw [if_neg hp] at ha
      simp at ha
  · rintro ⟨hp, hg⟩
    exact ⟨k, Store.get_mem_keys hg, by rw [if_pos hp, hg]; rfl⟩

/-! ## Key-space facts -/

theorem snapshotRootKey_length : snapshotRootKey.length = 12 := rfl

theorem snapshotJournalKey_length : snapshotJournalKey.length = 15 := rfl

theorem snapshotGeneratorKey_length : snapshotGeneratorKey.length = 17 := rfl

theorem snapshotRecoveryKey_length : snapshotRecoveryKey.length = 16 := rfl

theorem snapshotSyncStatusKey_length : snapshotSyncStatusKey.length = 18 := rfl

theorem accountSnapshotKey_length (h : Hash) :
    (accountSnapshotKey h).length = 33 := by
  simp [accountSnapshotKey, snapshotAccountPrefix, h.prop]

theorem storageSnapshotKey_length (a s : Hash) :
    (storageSnapshotKey a s).length = 65 := by
  simp [storageSnapshotKey, snapshotStoragePrefix, a.prop, s.prop]

theorem storageSnapshotsKey_length (a : Hash) :
    (storageSnapshotsKey a).length = 33 := by
  simp [storageSnapshotsKey, snapshotStoragePrefix, a.prop]

theorem accountSnapshotKey_inj {h h' : Hash}
    (e : accountSnapshotKey h = accountSnapshotKey h') : h = h' := by
  unfold accountSnapshotKey snapshotAccountPrefix at e
  simp only [List.cons_append, List.nil_append, List.cons.injEq, true_and] at e
  exact Subtype.ext e

theorem storageSnapshotKey_inj {a s a' s' : Hash}
    (e : storageSnapshotKey a s = storageSnapshotKey a' s') : a = a' ∧ s = s' := by
  unfold storageSnapshotKey snapshotStoragePrefix at e
  have hl : (([111] : List Nat) ++ a.val).length = (([111] : List Nat) ++ a'.val).length := by
    simp [a.prop, a'.prop]
  obtain ⟨e1, e2⟩ := List.append_inj e hl
  simp only [List.cons_append, List.nil_append, List.cons.injEq, true_and] at e1
  exact ⟨Subtype.ext e1, Subtype.ext e2⟩

/-- The key schema is injective across all seven record kinds: distinct
slots never collide on a store key. -/
theorem Slot.key_inj {sl sl' : Slot} (e : sl.key = sl'.key) : sl = sl' := by
  cases sl <;> cases sl' <;> simp only [Slot.key] at e <;>
    first
      | rfl
      | exact congrArg Slot.account (accountSnapshotKey_inj e)
      | exact congrArg₂ Slot.storage (storageSnapshotKey_inj e).1
          (storageSnapshotKey_inj e).2
      | exact absurd (congrArg List.length e)
          (by simp [snapshotRootKey_length, snapshotJournalKey_length,
                snapshotGeneratorKey_length, snapshotRecoveryKey_length,
                snapshotSyncStatusKey_length, accountSnapshotKey_length,
                storageSnapshotKey_length])

/-! ## Write-accessor elimination -/

theorem critOr_ok {msg : String} {e : Except String Store} {st : Store}
    (h : critOr msg e = WOutcome.ok st) : e = Except.ok st := by
  cases e with
  | error err => simp [critOr] at h
  | ok stx => simp only [critOr] at h; rw [WOutcome.ok.injEq] at h; rw [h]

theorem FStore.putE_ok {f : FStore} {k : Key} {v : Value} {st : Store}
    (h : f.putE k v = Except.ok st) :
    f.putFails k v = false ∧ st = f.db.put k v := by
  by_cases hf : f.putFails k v = true
  · simp [FStore.putE, hf] at h
  · simp [FStore.putE, hf] at h
    exact ⟨by simpa using hf, h.symm⟩

theorem FStore.delE_ok {f : FStore} {k : Key} {st : Store}
    (h : f.delE k = Except.ok st) :
    f.delFails k = false ∧ st = f.db.del k := by
  by_cases hf : f.delFails k = true
  · simp [FStore.delE, hf] at h
  · simp [FStore.delE, hf] at h
    exact ⟨by simpa using hf, h.symm⟩

/-- A Write accessor that returns normally wrote exactly its record's
bytes under its slot's key. -/
theorem SnapRecord.write_ok {f : FStore} {r : SnapRecord} {st : Store}
    (h : SnapRecord.write f r = WOutcome.ok st) :
    st = f.db.put r.slot.key r.bytes := by
  cases r <;>
    exact (FStore.putE_ok (critOr_ok h)).2

theorem critOr_putE_crit (f : FStore) (k : Key) (v : Value) (msg : String) :
    (critOr msg (f.putE k v) = WOutcome.crit msg) ↔ f.putFails k v = true := by
  by_cases hf : f.putFails k v = true <;> simp [critOr, FStore.putE, hf]

theorem critOr_putE_okOut (f : FStore) (k : Key) (v : Value) (msg : String)
    (hf : f.putFails k v = false) :
    critOr msg (f.putE k v) = WOutcome.ok (f.db.put k v) := by
  simp [critOr, FStore.putE, hf]

theorem critOr_delE_crit (f : FStore) (k : Key) (msg : String) :
    (critOr msg (f.delE k) = WOutcome.crit msg) ↔ f.delFails k = true := by
  by_cases hf : f.delFails k = true <;> simp [critOr, FStore.delE, hf]

theorem critOr_delE_okOut (f : FStore) (k : Key) (msg : String)
    (hf : f.delFails k = false) :
    critOr msg (f.delE k) = WOutcome.ok (f.db.del k) := by
  simp [critOr, FStore.delE, hf]

/-! ## Prefix facts -/

theorem isPrefixOf_append_self (l t : List Nat) : l.isPrefixOf (l ++ t) = true := by
  induction l with
  | nil => simp
  | cons a l ih => simp [List.isPrefixOf, ih]

theorem isPrefixOf_false_of_short {l t : List Nat} (h : t.length < l.length) :
    l.isPrefixOf t = false := by
  rw [Bool.eq_false_iff]
  intro hc
  have hp := List.isPrefixOf_iff_prefix.mp hc
  have hle := hp.length_le
  omega

theorem isPrefixOf_false_of_head {x y : Nat} (l t : List Nat) (h : x ≠ y) :
    (x :: l).isPrefixOf (y :: t) = false := by
  simp [List.isPrefixOf, h]

theorem storageSnapshotsKey_inj {a a' : Hash}
    (e : storageSnapshotsKey a = storageSnapshotsKey a') : a = a' := by
  unfold storageSnapshotsKey snapshotStoragePrefix at e
  simp only [List.cons_append, List.nil_append, List.cons.injEq, true_and] at e
  exact Subtype.ext e

theorem storageSnapshotKey_eq_append (a s : Hash) :
    storageSnapshotKey a s = storageSnapshotsKey a ++ s.val := by
  simp [storageSnapshotKey, storageSnapshotsKey, List.append_assoc]

theorem isPrefixOf_false_of_other_storage {a a' s' : Hash} (h : a ≠ a') :
    (storageSnapshotsKey a).isPrefixOf (storageSnapshotKey a' s') = false := by
  rw [Bool.eq_false_iff]
  intro hc
  have hp := List.isPrefixOf_iff_prefix.mp hc
  have ht := List.prefix_iff_eq_take.mp hp
  rw [storageSnapshotsKey_length, storageSnapshotKey_eq_append,
    List.take_left' (storageSnapshotsKey_length a')] at ht
  exact h (storageSnapshotsKey_inj ht)

/-! ## Codec facts -/

theorem readUint64_putUint64 {n : Nat} (h : n < 2 ^ 64) :
    readUint64 (putUint64 n) = n := by
  simp only [readUint64, putUint64, List.getD_cons_zero, List.getD_cons_succ]
  omega

theorem putUint64_length (n : Nat) : (putUint64 n).length = 8 := rfl

theorem bytesToHash_of_len32 {b : List Nat} (h : b.length = 32) :
    (bytesToHash b).val = b := by
  simp [bytesToHash, h]

/-! ## The claims -/

/-- C2: for every 32-byte state root, `WriteSnapshotRoot` followed by
`ReadSnapshotRoot` on the same store returns exactly that root: the
stored value under the fixed snapshot-root key is the 32-byte hash and
the read decodes it unchanged. -/
theorem C2_snapshot_root_roundtrip (f : FStore) (root : Hash) (st : Store)
    (h : WriteSnapshotRoot f root = WOutcome.ok st) :
    st.get snapshotRootKey = some root.val ∧ ReadSnapshotRoot st = root := by
  have hst : st = f.db.put snapshotRootKey root.val :=
    (FStore.putE_ok (critOr_ok h)).2
  subst hst
  refine ⟨Store.get_put_self .., ?_⟩
  simp only [ReadSnapshotRoot, Store.get_put_self, Option.getD_some]
  rw [if_neg (by simp [root.prop])]
  exact Subtype.ext (bytesToHash_of_len32 root.prop)

theorem C2_snapshot_root_roundtrip_witness :
    (Store.put [] snapshotRootKey zeroHash.val).get snapshotRootKey = some zeroHash.val
    ∧ ReadSnapshotRoot (Store.put [] snapshotRootKey zeroHash.val) = zeroHash :=
  C2_snapshot_root_roundtrip (noFail []) zeroHash _ rfl

/-- C3: for every uint64 block number `n`, `WriteSnapshotRecoveryNumber`
stores exactly the 8-byte big-endian encoding of `n` under the fixed
recovery key, and a subsequent `ReadSnapshotRecoveryNumber` returns a
present value equal to `n`. -/
theorem C3_recovery_number_roundtrip (f : FStore) (n : Nat) (st : Store)
    (hn : n < 2 ^ 64) (h : WriteSnapshotRecoveryNumber f n = WOutcome.ok st) :
    st.get snapshotRecoveryKey = some (putUint64 n)
    ∧ ReadSnapshotRecoveryNumber st = some n := by
  have hst : st = f.db.put snapshotRecoveryKey (putUint64 n) :=
    (FStore.putE_ok (critOr_ok h)).2
  subst hst
  refine ⟨Store.get_put_self .., ?_⟩
  simp only [ReadSnapshotRecoveryNumber, Store.get_put_self, Option.getD_some]
  rw [if_neg (by simp [putUint64_length]), if_neg (by simp [putUint64_length])]
  exact congrArg some (readUint64_putUint64 hn)

theorem C3_recovery_number_roundtrip_witness :
    (Store.put [] snapshotRecoveryKey (putUint64 5)).get snapshotRecoveryKey = some (putUint64 5)
    ∧ ReadSnapshotRecoveryNumber (Store.put [] snapshotRecoveryKey (putUint64 5)) = some 5 :=
  C3_recovery_number_roundtrip (noFail []) 5 _ (by decide) rfl

/-- C4: for every account hash `h` and entry `e`, `ReadAccountSnapshot`
after `WriteAccountSnapshot(db, h, e)` returns `e`, and after a
subsequent `DeleteAccountSnapshot(db, h)` it returns absent: the
account-leaf accessors form a get/put/delete round-trip keyed by the
account hash. -/
theorem C4_account_roundtrip (f g : FStore) (h : Hash) (e : Value) (st st' : Store)
    (hw : WriteAccountSnapshot f h e = WOutcome.ok st) (_hg : g.db = st)
    (hd : DeleteAccountSnapshot g h = WOutcome.ok st') :
    ReadAccountSnapshot st h = some e ∧ ReadAccountSnapshot st' h = none := by
  have hst : st = f.db.put (accountSnapshotKey h) e :=
    (FStore.putE_ok (critOr_ok hw)).2
  have hst' : st' = g.db.del (accountSnapshotKey h) :=
    (FStore.delE_ok (critOr_ok hd)).2
  constructor
  · simp only [ReadAccountSnapshot]
    rw [hst]
    exact Store.get_put_self ..
  · simp only [ReadAccountSnapshot]
    rw [hst']
    exact Store.get_del_self ..

theorem C4_account_roundtrip_witness :
    ReadAccountSnapshot (Store.put [] (accountSnapshotKey zeroHash) [1, 2]) zeroHash = some [1, 2]
    ∧ ReadAccountSnapshot
        ((Store.put [] (accountSnapshotKey zeroHash) [1, 2]).del (accountSnapshotKey zeroHash))
        zeroHash = none :=
  C4_account_roundtrip (noFail []) (noFail _) zeroHash [1, 2] _ _ rfl rfl rfl

/-- C5: for every pair of hashes and entry `e`, `ReadStorageSnapshot`
after `WriteStorageSnapshot` returns `e`, and the storage-leaf key built
from the two fixed-length 32-byte hashes is injective in the pair. -/
theorem C5_storage_roundtrip (f : FStore) (a s : Hash) (e : Value) (st : Store)
    (hw : WriteStorageSnapshot f a s e = WOutcome.ok st) :
    ReadStorageSnapshot st a s = some e
    ∧ ∀ a' s' : Hash, storageSnapshotKey a s = storageSnapshotKey a' s' → a = a' ∧ s = s' := by
  constructor
  · simp only [ReadStorageSnapshot]
    rw [(FStore.putE_ok (critOr_ok hw)).2]
    exact Store.get_put_self ..
  · intro a' s' he
    exact storageSnapshotKey_inj he

theorem C5_storage_roundtrip_witness :
    ReadStorageSnapshot
      (Store.put [] (storageSnapshotKey zeroHash (hashOfByte 1)) [7]) zeroHash (hashOfByte 1) = some [7]
    ∧ ∀ a' s' : Hash,
        storageSnapshotKey zeroHash (hashOfByte 1) = storageSnapshotKey a' s' →
        zeroHash = a' ∧ hashOfByte 1 = s' :=
  C5_storage_roundtrip (noFail []) zeroHash (hashOfByte 1) [7] _ rfl

/-- C7: after `DeleteSnapshotRecoveryNumber`, `ReadSnapshotRecoveryNumber`
returns absent regardless of any value previously stored: deletion
durably clears the recovery marker. -/
theorem C7_recovery_marker_cleared (f : FStore) (st : Store)
    (h : DeleteSnapshotRecoveryNumber f = WOutcome.ok st) :
    ReadSnapshotRecoveryNumber st = none := by
  have hst : st = f.db.del snapshotRecoveryKey :=
    (FStore.delE_ok (critOr_ok h)).2
  subst hst
  simp [ReadSnapshotRecoveryNumber, Store.get_del_self]

theorem C7_recovery_marker_cleared_witness :
    ReadSnapshotRecoveryNumber
      (Store.del [(snapshotRecoveryKey, putUint64 7)] snapshotRecoveryKey) = none :=
  C7_recovery_marker_cleared (noFail [(snapshotRecoveryKey, putUint64 7)]) _ rfl

/-- C1: for every one of the seven persisted record kinds, each Write
and Delete accessor aborts the process (via `log.Crit`) exactly when the
underlying store `Put`/`Delete` returns an error, and returns normally
with the record durably written (or removed) when the store operation
succeeds; a write failure is never silently ignored. -/
theorem C1_store_write_failures_fatal (f : FStore) (r : SnapRecord) (sl : Slot) :
    (SnapRecord.write f r = WOutcome.crit r.critMsg ↔
      f.putFails r.slot.key r.bytes = true)
    ∧ (f.putFails r.slot.key r.bytes = false →
        SnapRecord.write f r = WOutcome.ok (f.db.put r.slot.key r.bytes)
        ∧ (f.db.put r.slot.key r.bytes).get r.slot.key = some r.bytes)
    ∧ (Slot.del f sl = WOutcome.crit sl.delMsg ↔ f.delFails sl.key = true)
    ∧ (f.delFails sl.key = false →
        Slot.del f sl = WOutcome.ok (f.db.del sl.key)
        ∧ (f.db.del sl.key).get sl.key = none) := by
  refine ⟨?_, ?_, ?_, ?_⟩
  · cases r <;> exact critOr_putE_crit ..
  · cases r <;> exact fun hf => ⟨critOr_putE_okOut _ _ _ _ hf, Store.get_put_self ..⟩
  · cases sl <;> exact critOr_delE_crit ..
  · cases sl <;> exact fun hf => ⟨critOr_delE_okOut _ _ _ hf, Store.get_del_self ..⟩

theorem C1_store_write_failures_fatal_witness :
    (SnapRecord.write (noFail []) (SnapRecord.journal [1]) =
      WOutcome.ok (Store.put [] snapshotJournalKey [1])
     ∧ (Store.put [] snapshotJournalKey [1]).get snapshotJournalKey = some [1])
    ∧ (Slot.del (noFail []) Slot.journal = WOutcome.ok (Store.del [] snapshotJournalKey)
       ∧ (Store.del [] snapshotJournalKey).get snapshotJournalKey = none) :=
  ⟨(C1_store_write_failures_fatal (noFail []) (SnapRecord.journal [1]) Slot.journal).2.1 rfl,
   (C1_store_write_failures_fatal (noFail []) (SnapRecord.journal [1]) Slot.journal).2.2.2 rfl⟩

/-- C6: the seven record kinds are stored under disjoint keys — the key
schema is injective across kinds and key arguments, a write accessor
that returns normally changes no key other than its own, and writing an
account leaf at `h` leaves the account read at any `h' ≠ h` unchanged. -/
theorem C6_disjoint_keys_frame (f : FStore) (st : Store) (r : SnapRecord) (k : Key)
    (hw : SnapRecord.write f r = WOutcome.ok st) :
    (∀ sl sl' : Slot, sl.key = sl'.key → sl = sl')
    ∧ (k ≠ r.slot.key → st.get k = f.db.get k)
    ∧ (∀ (h h' : Hash) (e : Value) (st₂ : Store), h ≠ h' →
        WriteAccountSnapshot f h e = WOutcome.ok st₂ →
        ReadAccountSnapshot st₂ h' = ReadAccountSnapshot f.db h') := by
  refine ⟨fun _ _ he => Slot.key_inj he, ?_, ?_⟩
  · intro hk
    rw [SnapRecord.write_ok hw]
    exact Store.get_put_ne _ _ hk
  · intro h h' e st₂ hne hw₂
    simp only [ReadAccountSnapshot]
    rw [(FStore.putE_ok (critOr_ok hw₂)).2]
    exact Store.get_put_ne _ _ fun hc => hne (accountSnapshotKey_inj hc).symm

theorem C6_disjoint_keys_frame_witness :
    (Store.put [] (accountSnapshotKey zeroHash) [1]).get snapshotRootKey =
      Store.get [] snapshotRootKey
    ∧ ReadAccountSnapshot (Store.put [] (accountSnapshotKey zeroHash) [1]) (hashOfByte 1) =
        ReadAccountSnapshot [] (hashOfByte 1) := by
  have hc := C6_disjoint_keys_frame (noFail []) _ (SnapRecord.account zeroHash [1])
    snapshotRootKey rfl
  exact ⟨hc.2.1 (by decide), hc.2.2 zeroHash (hashOfByte 1) [1] _ (by decide) rfl⟩

/-- C8: `IterateStorageSnapshots(db, a)` ranges over exactly the store
keys carrying the storage-snapshot prefix of `a`: a pair is visited iff
its key has that prefix and is currently bound; every key written by
`WriteStorageSnapshot(db, a, s, e)` carries the prefix; and no key of
another account's storage or of another record kind does. -/
theorem C8_iterate_storage_range (db : Store) (a : Hash) :
    (∀ (k : Key) (v : Value), (k, v) ∈ IterateStorageSnapshots db a ↔
        (storageSnapshotsKey a).isPrefixOf k = true ∧ db.get k = some v)
    ∧ (∀ s : Hash, (storageSnapshotsKey a).isPrefixOf (storageSnapshotKey a s) = true)
    ∧ (∀ sl : Slot, (∀ s : Hash, sl ≠ Slot.storage a s) →
        (storageSnapshotsKey a).isPrefixOf sl.key = false) := by
  refine ⟨fun k v => Store.mem_iterate, fun s => ?_, fun sl hsl => ?_⟩
  · rw [storageSnapshotKey_eq_append]
    exact isPrefixOf_append_self ..
  · cases sl with
    | root =>
      exact isPrefixOf_false_of_short
        (by simp only [Slot.key, snapshotRootKey_length, storageSnapshotsKey_length]; omega)
    | journal =>
      exact isPrefixOf_false_of_short
        (by simp only [Slot.key, snapshotJournalKey_length, storageSnapshotsKey_length]; omega)
    | generator =>
      exact isPrefixOf_false_of_short
        (by simp only [Slot.key, snapshotGeneratorKey_length, storageSnapshotsKey_length]; omega)
    | recovery =>
      exact isPrefixOf_false_of_short
        (by simp only [Slot.key, snapshotRecoveryKey_length, storageSnapshotsKey_length]; omega)
    | syncStatus =>
      exact isPrefixOf_false_of_short
        (by simp only [Slot.key, snapshotSyncStatusKey_length, storageSnapshotsKey_length]; omega)
    | account h =>
      have h1 : Slot.key (Slot.account h) = 97 :: h.val := by
        simp [Slot.key, accountSnapshotKey, snapshotAccountPrefix]
      have h2 : storageSnapshotsKey a = 111 :: a.val := by
        simp [storageSnapshotsKey, snapshotStoragePrefix]
      rw [h1, h2]
      exact isPrefixOf_false_of_head _ _ (by decide)
    | storage a' s' =>
      have hne : a ≠ a' := fun he => hsl s' (by rw [he])
      exact isPrefixOf_false_of_other_storage hne

theorem C8_iterate_storage_range_witness :
    ((storageSnapshotKey zeroHash (hashOfByte 1), [9]) ∈
        IterateStorageSnapshots
          (Store.put [] (storageSnapshotKey zeroHash (hashOfByte 1)) [9]) zeroHash
      ↔ (storageSnapshotsKey zeroHash).isPrefixOf
          (storageSnapshotKey zeroHash (hashOfByte 1)) = true
        ∧ Store.get (Store.put [] (storageSnapshotKey zeroHash (hashOfByte 1)) [9])
            (storageSnapshotKey zeroHash (hashOfByte 1)) = some [9])
    ∧ (storageSnapshotsKey zeroHash).isPrefixOf (Slot.key Slot.root) = false :=
  ⟨(C8_iterate_storage_range _ zeroHash).1 _ [9],
   (C8_iterate_storage_range [] zeroHash).2.2 Slot.root (fun s h => by cases h)⟩

/-- C9: `ReadSnapshotRoot` returns the all-zero hash both when no root
record is stored and when the stored blob's length is not 32; it is a
total function (never fails or panics), so an absent snapshot root is
indistinguishable from a stored all-zero root. -/
theorem C9_read_root_total (db db' : Store) :
    (db.get snapshotRootKey = none → ReadSnapshotRoot db = zeroHash)
    ∧ (∀ data : Value, db.get snapshotRootKey = some data → data.length ≠ 32 →
        ReadSnapshotRoot db = zeroHash)
    ∧ (db.get snapshotRootKey = none → db'.get snapshotRootKey = some zeroHash.val →
        ReadSnapshotRoot db = ReadSnapshotRoot db') := by
  refine ⟨?_, ?_, ?_⟩
  · intro h
    simp [ReadSnapshotRoot, h]
  · intro data h hlen
    simp [ReadSnapshotRoot, h, hlen]
  · intro h h'
    have e1 : ReadSnapshotRoot db = zeroHash := by simp [ReadSnapshotRoot, h]
    have e2 : ReadSnapshotRoot db' = zeroHash := by
      simp only [ReadSnapshotRoot, h', Option.getD_some]
      rw [if_neg (by simp [zeroHash])]
      exact Subtype.ext (bytesToHash_of_len32 (by simp [zeroHash]))
    rw [e1, e2]

theorem C9_read_root_total_witness :
    ReadSnapshotRoot [] = zeroHash
    ∧ ReadSnapshotRoot [(snapshotRootKey, [1])] = zeroHash
    ∧ ReadSnapshotRoot [] = ReadSnapshotRoot [(snapshotRootKey, zeroHash.val)] :=
  ⟨(C9_read_root_total [] []).1 rfl,
   (C9_read_root_total [(snapshotRootKey, [1])] []).2.1 [1] rfl (by decide),
   (C9_read_root_total [] [(snapshotRootKey, zeroHash.val)]).2.2 rfl rfl⟩

/-- C10: `ReadSnapshotRecoveryNumber` is total over arbitrary stored
bytes: any stored blob whose length is not exactly 8 — including a
corrupt or truncated marker — reads as an absent marker (`none`), never
a decode error or an out-of-bounds access; an absent key also reads as
`none`. -/
theorem C10_read_recovery_total (db : Store) :
    (∀ data : Value, db.get snapshotRecoveryKey = some data → data.length ≠ 8 →
        ReadSnapshotRecoveryNumber db = none)
    ∧ (db.get snapshotRecoveryKey = none → ReadSnapshotRecoveryNumber db = none) := by
  constructor
  · intro data h hlen
    simp only [ReadSnapshotRecoveryNumber, h, Option.getD_some]
    by_cases h0 : data.length = 0
    · rw [if_pos h0]
    · rw [if_neg h0, if_pos hlen]
  · intro h
    simp [ReadSnapshotRecoveryNumber, h]

theorem C10_read_recovery_total_witness :
    ReadSnapshotRecoveryNumber [(snapshotRecoveryKey, [1, 2, 3])] = none
    ∧ ReadSnapshotRecoveryNumber [] = none :=
  ⟨(C10_read_recovery_total [(snapshotRecoveryKey, [1, 2, 3])]).1 [1, 2, 3] rfl (by decide),
   (C10_read_recovery_total []).2 rfl⟩

end GoOrange
